import Mathlib

set_option maxRecDepth 4000

/-!
Verification development for the `quartustcl` library.

The Python source (`quartustcl/__init__.py`) manages a Tcl interpreter
subprocess: it quotes values into Tcl syntax (`QuartusTcl.quote`), frames
requests with sentinel lines (`QuartusTcl.interact`), parses Tcl lists via an
embedded `tkinter.Tcl()` interpreter (`QuartusTcl.parse`), and builds command
strings from names and arguments (`QuartusTcl.run_args`, `__getattr__`).

This file gives a shallow embedding of those functions over `String` /
`List Char` and proves properties about them.  Strings are manipulated through
their underlying character lists, so every definition is executable.
-/

/-! ### Character classes and Python string primitives -/

/-- Whitespace characters stripped by Python's `str.strip()` (ASCII subset:
space, tab, newline, carriage return, vertical tab, form feed). -/
def isPyWs (c : Char) : Bool :=
  c == ' ' || c == '\t' || c == '\n' || c == '\r' ||
  c == Char.ofNat 11 || c == Char.ofNat 12

/-- Whitespace in the Tcl list grammar (`TclIsSpaceProcM`): the same six
ASCII whitespace characters. -/
def isTclSpace (c : Char) : Bool := isPyWs c

/-- Inter-word whitespace in a Tcl script (space, tab, vertical tab, form
feed, carriage return); a newline instead terminates the command. -/
def isScriptWs (c : Char) : Bool :=
  c == ' ' || c == '\t' || c == '\r' || c == Char.ofNat 11 || c == Char.ofNat 12

/-- Command terminators in a Tcl script: newline and semicolon. -/
def isScriptSep (c : Char) : Bool := c == '\n' || c == ';'

/-- Python `str.strip()`: remove leading and trailing whitespace. -/
def pyStrip (s : String) : String :=
  String.mk (((s.data.dropWhile isPyWs).reverse.dropWhile isPyWs).reverse)

/-- Python `str.rstrip()`: remove trailing whitespace. -/
def pyRStrip (s : String) : String :=
  String.mk ((s.data.reverse.dropWhile isPyWs).reverse)

/-- Python `str.startswith(pre)`. -/
def pyStartsWith (s pre : String) : Bool := pre.data.isPrefixOf s.data

/-- Python `str.endswith(suf)`. -/
def pyEndsWith (s suf : String) : Bool := suf.data.isSuffixOf s.data

/-- Split a character list at its first space character. -/
def splitAtSpace : List Char → Option (List Char × List Char)
  | [] => none
  | c :: t =>
    if c == ' ' then some ([], t)
    else match splitAtSpace t with
      | none => none
      | some (a, b) => some (c :: a, b)

/-- Python `s.split(' ', 2)`: split on single spaces, at most twice, keeping
empty parts. -/
def pySplitSpace2 (s : String) : List String :=
  match splitAtSpace s.data with
  | none => [s]
  | some (a, r₁) =>
    match splitAtSpace r₁ with
    | none => [String.mk a, String.mk r₁]
    | some (b, r₂) => [String.mk a, String.mk b, String.mk r₂]

/-- Numeric value of a list of decimal digits. -/
def digitsVal (l : List Char) : Nat :=
  l.foldl (fun acc c => 10 * acc + (c.toNat - 48)) 0

/-- Python `int(s)`: optional surrounding whitespace, optional sign, then at
least one decimal digit (underscore grouping is not modelled). -/
def pyInt (s : String) : Option Int :=
  match (pyStrip s).data with
  | '-' :: ds =>
    if ds ≠ [] ∧ ds.all Char.isDigit then some (-(digitsVal ds : Int)) else none
  | '+' :: ds =>
    if ds ≠ [] ∧ ds.all Char.isDigit then some (digitsVal ds : Int) else none
  | ds =>
    if ds ≠ [] ∧ ds.all Char.isDigit then some (digitsVal ds : Int) else none

/-- Python `repr` of a string, for the ASCII-printable case: wrap in single
quotes (double quotes when the text contains a single quote but no double
quote) and backslash-escape backslashes, the quote character, newlines, tabs
and carriage returns.  Escaping of other non-printable characters is not
modelled; all inputs considered here are printable. -/
def pyReprChar (q : Char) (c : Char) : List Char :=
  if c == '\\' then ['\\', '\\']
  else if c == q then ['\\', q]
  else if c == '\n' then ['\\', 'n']
  else if c == '\r' then ['\\', 'r']
  else if c == '\t' then ['\\', 't']
  else [c]

/-- Python `repr` for strings (printable-ASCII fragment). -/
def pyRepr (s : String) : String :=
  let q : Char :=
    if s.data.contains '\x27' && !(s.data.contains '"') then '"' else '\x27'
  String.mk (q :: s.data.flatMap (pyReprChar q) ++ [q])

/-! ### The quoting engine (`QuartusTcl.quote`, `__init__.py` lines 204-224) -/

/-- Python `str.replace(needle, repl)` for a one-character needle. -/
def rep1 (needle : Char) (repl : List Char) : List Char → List Char
  | [] => []
  | c :: t => (if c == needle then repl else [c]) ++ rep1 needle repl t

/-- The test `any(c in data for c in '\x7b\x7d')` from `quote`. -/
def containsBrace (s : String) : Bool :=
  s.data.any (fun c => c == '{' || c == '}')

/-- The escaping pass of `quote`:
`data.replace('\\', '\\\\').replace('\x7b', '\\\x7b').replace('\x7d', '\\\x7d')`. -/
def quoteEscape (l : List Char) : List Char :=
  rep1 '}' ['\\', '}'] (rep1 '{' ['\\', '{'] (rep1 '\\' ['\\', '\\'] l))

/-- `QuartusTcl.quote` (`__init__.py` lines 204-224): if the data contains a
brace, escape and wrap in `[subst -nocommands -novariables \x7b...\x7d]`;
otherwise wrap directly in braces. -/
def quote (s : String) : String :=
  if containsBrace s then
    "[subst -nocommands -novariables \x7b" ++ String.mk (quoteEscape s.data) ++ "\x7d]"
  else
    "\x7b" ++ s ++ "\x7d"

/-! ### Tcl word evaluation (for the `evaluate(quote(x)) == x` invariant)

`quote`'s output is interpolated as one word of a generated Tcl command.  We
model how the Tcl parser produces that word's value:

* a brace-quoted word `\x7b...\x7d` scans to the matching close brace,
  counting nested unescaped braces and skipping backslash sequences
  (`Tcl_ParseBraces`); its value is the enclosed text with only
  backslash-newline substitution applied;
* `[subst -nocommands -novariables \x7b...\x7d]` is command substitution
  invoking `subst` with variable and command substitution disabled, i.e.
  backslash substitution alone is applied to the braced argument's value.

Only the two shapes that `quote` can emit are modelled; other words give
`none`, as does a word whose brace is never closed (Tcl reports a
`missing close-brace` error there, so no value is produced). -/

/-- Scan the inside of a brace-quoted word: `scanBraces l d` walks `l` at
nesting depth `d`, skipping backslash sequences, and returns the text up to
the brace matching depth 0 together with the remainder after it. -/
def scanBraces : List Char → Nat → Option (List Char × List Char)
  | [], _ => none
  | ['\\'], _ => none
  | '\\' :: c :: t, d =>
    match scanBraces t d with
    | none => none
    | some (i, r) => some ('\\' :: c :: i, r)
  | '{' :: t, d =>
    match scanBraces t (d + 1) with
    | none => none
    | some (i, r) => some ('{' :: i, r)
  | '}' :: t, 0 => some ([], t)
  | '}' :: t, d + 1 =>
    match scanBraces t d with
    | none => none
    | some (i, r) => some ('}' :: i, r)
  | c :: t, d =>
    match scanBraces t d with
    | none => none
    | some (i, r) => some (c :: i, r)

/-- Tcl backslash substitution for a single escaped character (the sequences
`\a \b \f \n \r \t \v`, backslash-newline to space, and the default rule that
drops the backslash; `\x`, `\u` and octal forms are not modelled, no input in
this development contains them). -/
def bsEsc (c : Char) : Char :=
  if c == 'a' then Char.ofNat 7
  else if c == 'b' then Char.ofNat 8
  else if c == 'f' then Char.ofNat 12
  else if c == 'n' then '\n'
  else if c == 'r' then '\r'
  else if c == 't' then '\t'
  else if c == 'v' then Char.ofNat 11
  else if c == '\n' then ' '
  else c

/-- Tcl backslash substitution over a whole text (collapsing of whitespace
after backslash-newline is not modelled; no input here exercises it). -/
def bsSub : List Char → List Char
  | [] => []
  | ['\\'] => ['\\']
  | '\\' :: c :: t => bsEsc c :: bsSub t
  | c :: t => c :: bsSub t

/-- Substitution inside a brace-quoted word: only backslash-newline becomes a
space; every other character, including backslash sequences, is literal. -/
def braceNLsub : List Char → List Char
  | [] => []
  | ['\\'] => ['\\']
  | '\\' :: '\n' :: t => ' ' :: braceNLsub t
  | '\\' :: c :: t => '\\' :: c :: braceNLsub t
  | c :: t => c :: braceNLsub t

/-- The literal prefix of the `[subst ...]` construct emitted by `quote`. -/
def substCallChars : List Char := "[subst -nocommands -novariables \x7b".data

/-- Evaluate one Tcl word of the shapes produced by `quote` to its value
(`none` when the Tcl parser would report an error for the standalone word). -/
def tclEvalWord (w : String) : Option String :=
  match w.data with
  | '{' :: t =>
    match scanBraces t 0 with
    | some (inner, []) => some (String.mk (braceNLsub inner))
    | _ => none
  | _ =>
    if substCallChars.isPrefixOf w.data then
      match scanBraces (w.data.drop substCallChars.length) 0 with
      | some (inner, [']']) => some (String.mk (bsSub (braceNLsub inner)))
      | _ => none
    else none

/-! ### The Tcl list grammar (`TclFindElement`)

`QuartusTcl.parse` delegates list parsing to an embedded `tkinter.Tcl()`
interpreter.  The list grammar itself (used below both as the well-formedness
reference and as the splitter of the spec-modelled depth parser) is that of
Tcl's `TclFindElement`:

* elements are separated by whitespace;
* an element starting with `\x7b` extends to the matching unescaped close
  brace (nested braces count, backslash sequences are skipped); its value is
  the raw enclosed text; the close brace must be followed by whitespace or
  the end of the list;
* an element starting with `"` extends to the closing unescaped double quote
  (quotes do not nest); its value gets backslash substitution; the close
  quote must be followed by whitespace or the end;
* any other element is bare, extends to the next whitespace, and gets
  backslash substitution; braces, quotes, `$` and `[` are ordinary characters
  inside a bare element. -/

/-- Scan a double-quoted list element: return the raw text before the closing
quote and the remainder after it (`none` when the quote is never closed). -/
def scanQList : List Char → Option (List Char × List Char)
  | [] => none
  | ['\\'] => none
  | '\\' :: c :: t =>
    match scanQList t with
    | none => none
    | some (a, r) => some ('\\' :: c :: a, r)
  | '"' :: t => some ([], t)
  | c :: t =>
    match scanQList t with
    | none => none
    | some (a, r) => some (c :: a, r)

/-- Scan a bare list element: return its raw text and the remainder starting
at the terminating whitespace (backslash sequences are skipped). -/
def scanBareList : List Char → List Char × List Char
  | [] => ([], [])
  | ['\\'] => (['\\'], [])
  | '\\' :: c :: t =>
    let (a, r) := scanBareList t
    ('\\' :: c :: a, r)
  | c :: t =>
    if isTclSpace c then ([], c :: t)
    else
      let (a, r) := scanBareList t
      (c :: a, r)

/-- Split a Tcl list into its element values, `TclFindElement` style.
`fuel` bounds the number of elements processed; `listElems` supplies
`length + 1`, which always suffices since each step consumes a character. -/
def listElemsAux : Nat → List Char → Except Unit (List String)
  | 0, _ => .error ()
  | _ + 1, [] => .ok []
  | fuel + 1, c :: t =>
    if isTclSpace c then listElemsAux fuel t
    else if c == '{' then
      match scanBraces t 0 with
      | none => .error ()
      | some (inner, rest) =>
        match rest with
        | [] => .ok [String.mk inner]
        | r :: rs =>
          if isTclSpace r then
            (listElemsAux fuel (r :: rs)).map (String.mk inner :: ·)
          else .error ()
    else if c == '"' then
      match scanQList t with
      | none => .error ()
      | some (raw, rest) =>
        match rest with
        | [] => .ok [String.mk (bsSub raw)]
        | r :: rs =>
          if isTclSpace r then
            (listElemsAux fuel (r :: rs)).map (String.mk (bsSub raw) :: ·)
          else .error ()
    else
      match scanBareList (c :: t) with
      | (raw, rest) => (listElemsAux fuel rest).map (String.mk (bsSub raw) :: ·)

/-- Element values of a Tcl list (error when the text is not a list). -/
def listElems (s : String) : Except Unit (List String) :=
  listElemsAux (s.data.length + 1) s.data

/-- Well-formedness of a text under the Tcl list grammar. -/
def listWellFormed (s : String) : Bool := (listElems s).isOk

/-! ### The spec-modelled depth-parametrized parser

The repository's tests call `parse(text, levels=2)`, but the `parse` in
`src/quartustcl/__init__.py` takes no depth argument (it parses one level
only).  The depth-parametrized parser is therefore code of this repository
missing from `src/`. -/

/-- A Python value as returned by the depth-parametrized `parse`: a string or
a list of such values. -/
inductive PyVal where
  | str (s : String)
  | lst (items : List PyVal)

/-- Modelled from the spec: the depth-parametrized `parse(text, depth)` of
spec section 4.4 is missing from `src/` (the `parse` there is single-level;
the repository's tests call `parse(..., levels=2)`).  Depth 0 returns the
text unchanged; depth >= 1 splits the text into top-level elements honoring
balanced nested delimiters and non-nesting double-quote grouping (the list
grammar above, the spec's hand-rolled recursive-descent option); for depth
> 1 each element is recursively parsed at depth - 1.  Malformed input fails
with a parse error carrying the raw offending text. -/
def parseSpec : Nat → String → Except String PyVal
  | 0, text => .ok (.str text)
  | n + 1, text =>
    match listElems text with
    | .error _ => .error text
    | .ok parts => (parts.mapM (parseSpec n)).map .lst

/-! ### `QuartusTcl.parse` (`__init__.py` lines 179-202)

The source strips the input, then evaluates `'list ' + data` in the embedded
`tkinter.Tcl()` interpreter; any error becomes
`TclParseError('Tcl list could not be parsed: ' + repr(data))`.  It then
wraps the result in braces and reads its length and elements with `llength`
and `lindex`.

The embedded interpreter is modelled by its contract: evaluating
`list w1 ... wn` yields the canonical form of the list of the command's word
values, and `llength`/`lindex` on that canonical form recover exactly those
values.  What remains to model is Tcl *script* word parsing of
`'list ' + data`, i.e. of `data` itself after the literal command name:

* words are separated by script whitespace; newline and semicolon terminate
  the command (content after a terminator would be run as further commands —
  modelled as failing, since the protocol data never names an existing
  command; only trailing whitespace/terminators are accepted);
* a brace-quoted word is literal except backslash-newline;
* inside double-quoted and bare words, backslash substitution applies, and
  `$` followed by a variable-name character triggers variable substitution —
  the fresh interpreter has no such variables, so this is modelled as
  failure (predefined interpreter variables such as `tcl_version` are not
  modelled); `[` triggers command substitution, modelled as failure as well;
* after a closing brace or quote, a separator (or end) must follow. -/

/-- Does this character after `$` trigger variable substitution?
(Letters, digits, underscore, `\x7b` for `$\x7b...\x7d`, `(` for arrays.) -/
def isVarTrigger (c : Char) : Bool :=
  c.isAlphanum || c == '_' || c == '{' || c == '('

/-- Scan a double-quoted script word: like `scanQList`, but `[` and
substitutable `$` make evaluation fail. -/
def scanQScript : List Char → Option (List Char × List Char)
  | [] => none
  | ['\\'] => none
  | '\\' :: c :: t =>
    match scanQScript t with
    | none => none
    | some (a, r) => some ('\\' :: c :: a, r)
  | '"' :: t => some ([], t)
  | '[' :: _ => none
  | '$' :: c :: t =>
    if isVarTrigger c then none
    else match scanQScript (c :: t) with
      | none => none
      | some (a, r) => some ('$' :: a, r)
  | c :: t =>
    match scanQScript t with
    | none => none
    | some (a, r) => some (c :: a, r)

/-- Scan a bare script word up to whitespace or a command terminator;
backslash-newline ends the word and is replaced by a space separator. -/
def scanBareScript : List Char → Option (List Char × List Char)
  | [] => some ([], [])
  | ['\\'] => some (['\\'], [])
  | '\\' :: '\n' :: t => some ([], ' ' :: t)
  | '\\' :: c :: t =>
    match scanBareScript t with
    | none => none
    | some (a, r) => some ('\\' :: c :: a, r)
  | '[' :: _ => none
  | '$' :: c :: t =>
    if isVarTrigger c then none
    else match scanBareScript (c :: t) with
      | none => none
      | some (a, r) => some ('$' :: a, r)
  | c :: t =>
    if isScriptWs c || isScriptSep c then some ([], c :: t)
    else match scanBareScript t with
      | none => none
      | some (a, r) => some (c :: a, r)

/-- Word values of the single Tcl command `list <input>` (without the command
name), per the script grammar described above.  `fuel` bounds the steps;
each step consumes at least one character. -/
def scriptWordsAux : Nat → List Char → Except Unit (List String)
  | 0, _ => .error ()
  | _ + 1, [] => .ok []
  | fuel + 1, c :: t =>
    if isScriptWs c then scriptWordsAux fuel t
    else if isScriptSep c then
      if t.dropWhile (fun x => isScriptWs x || isScriptSep x) = [] then .ok []
      else .error ()
    else if c == '{' then
      match scanBraces t 0 with
      | none => .error ()
      | some (inner, rest) =>
        match rest with
        | [] => .ok [String.mk (braceNLsub inner)]
        | r :: rs =>
          if isScriptWs r || isScriptSep r then
            (scriptWordsAux fuel (r :: rs)).map (String.mk (braceNLsub inner) :: ·)
          else .error ()
    else if c == '"' then
      match scanQScript t with
      | none => .error ()
      | some (raw, rest) =>
        match rest with
        | [] => .ok [String.mk (bsSub raw)]
        | r :: rs =>
          if isScriptWs r || isScriptSep r then
            (scriptWordsAux fuel (r :: rs)).map (String.mk (bsSub raw) :: ·)
          else .error ()
    else
      match scanBareScript (c :: t) with
      | none => .error ()
      | some (raw, rest) =>
        if raw = [] then scriptWordsAux fuel rest
        else (scriptWordsAux fuel rest).map (String.mk (bsSub raw) :: ·)

/-- Word values of `list <s>` under the script grammar. -/
def scriptWords (s : String) : Except Unit (List String) :=
  scriptWordsAux (s.data.length + 1) s.data

/-- The `TclParseError` message raised by `parse` on the (stripped) data. -/
def tclParseErrMsg (d : String) : String :=
  "Tcl list could not be parsed: " ++ pyRepr d

/-- `QuartusTcl.parse` (`__init__.py` lines 179-202): strip the input,
evaluate `list <data>` in the embedded interpreter, and return the resulting
elements; a Tcl error becomes a `TclParseError` carrying the stripped data's
`repr` in its message. -/
def parseModel (data : String) : Except String (List String) :=
  match scriptWords (pyStrip data) with
  | .ok ws => .ok ws
  | .error _ => .error (tclParseErrMsg (pyStrip data))

/-! ### Sentinel generation (`QuartusTcl.interact`, `__init__.py` lines 115-125)

Each request builds `unique = str(hash(time.time()))` and the three sentinel
strings `self.sentinel + '_' + unique + '_START' / '_MIDDLE' / '_END'`.  The
session object holds no counter; the identifier is a function of the
wall-clock reading alone.  We model the Python hash of the clock reading as
the integer it yields: two requests that observe the same clock value obtain
the same hash, hence the same sentinels. -/

/-- The session's sentinel stem, `self.sentinel = '_PYTHON_SENTINEL'`. -/
def sentinelBase : String := "_PYTHON_SENTINEL"

/-- The per-request identifier `str(hash(time.time()))`, as a function of the
hash of the clock reading. -/
def sentinelUnique (timeHash : Int) : String := toString timeHash

/-- The start sentinel of a request. -/
def sentinelStartOf (h : Int) : String :=
  sentinelBase ++ "_" ++ sentinelUnique h ++ "_START"

/-- The middle sentinel of a request. -/
def sentinelMiddleOf (h : Int) : String :=
  sentinelBase ++ "_" ++ sentinelUnique h ++ "_MIDDLE"

/-- The end sentinel of a request. -/
def sentinelEndOf (h : Int) : String :=
  sentinelBase ++ "_" ++ sentinelUnique h ++ "_END"

/-- The three sentinel markers framing one request. -/
structure SentinelSet where
  first : String
  middle : String
  last : String
deriving DecidableEq

/-- The sentinel set of a request whose clock reading hashed to `h`. -/
def sentinelSet (h : Int) : SentinelSet :=
  ⟨sentinelStartOf h, sentinelMiddleOf h, sentinelEndOf h⟩

/-- The sentinel sets of the successive requests of one session, given the
hash of the wall-clock reading observed by each request. -/
def requestSentinels (timeHashes : List Int) : List SentinelSet :=
  timeHashes.map sentinelSet

/-! ### The `interact` read loop (`__init__.py` lines 141-177)

The loop reads lines and walks states 0, 1, 2: state 0 discards lines until
a line whose stripped form ends with the start sentinel; state 1 accumulates
captured stdout in `accum` until a line starts with the middle sentinel,
which is split as `_, error, extra = outline.split(' ', 2)` (a `ValueError`
if there are fewer than three parts or `int(error)` fails) and appended to
`accum_end`; state 2 accumulates further trailer lines in `accum_end` until
a line starts with the end sentinel.  With `debug=True`, received payload
lines are mirrored to stderr with an `'(tcl) >>> '` prefix; we carry that
debug output as an explicit log.  Exhausting the input models the real
loop's blocking forever on a closed stream (`readline` keeps returning an
empty string, which matches no sentinel). -/

/-- Outcome of the sentinel read loop. -/
inductive LoopResult where
  | ok (accum accumEnd : String) (rest : List String)
  | pyFail
  | hang
deriving DecidableEq

/-- A `'(tcl) >>> '` debug line as printed by `interact`. -/
def dbgRecv (l : String) : String := "(tcl) >>> " ++ pyRStrip l

/-- The read loop of `interact`, instrumented with the debug log.  Arguments:
state, the `error` variable, `accum`, `accum_end`, remaining input lines
(each including its trailing newline), accumulated debug log. -/
def interactLoopD (debug : Bool) (sS sM sE : String) :
    Nat → Int → String → String → List String → List String → LoopResult × List String
  | _, _, _, _, [], log => (.hang, log)
  | state, errVal, accum, accumEnd, l :: rest, log =>
    if state = 0 then
      if pyEndsWith (pyStrip l) sS then
        interactLoopD debug sS sM sE 1 errVal accum accumEnd rest log
      else
        interactLoopD debug sS sM sE 0 errVal accum accumEnd rest log
    else if state = 1 then
      if pyStartsWith l sM then
        match pySplitSpace2 l with
        | [_, e, extra] =>
          match pyInt e with
          | some err =>
            interactLoopD debug sS sM sE 2 err accum (accumEnd ++ l) rest
              (if debug && extra ≠ "" && err == 0 then log ++ [dbgRecv extra] else log)
          | none => (.pyFail, log)
        | _ => (.pyFail, log)
      else
        interactLoopD debug sS sM sE 1 errVal (accum ++ l) accumEnd rest
          (if debug && l ≠ "" then log ++ [dbgRecv l] else log)
    else
      if pyStartsWith l sE then (.ok accum accumEnd rest, log)
      else
        interactLoopD debug sS sM sE 2 errVal accum (accumEnd ++ l) rest
          (if debug && l ≠ "" && errVal == 0 then log ++ [dbgRecv l] else log)

/-- Result of one `interact` call. -/
inductive InteractOut where
  | value (v : String) (rest : List String)
  | tclError (message : String) (returnCode : Int) (errorCode : List String)
      (errorInfo : String) (rest : List String)
  | pyError (kind : String)
  | hang
deriving DecidableEq

/-- Decoding of the loop outcome, `__init__.py` lines 170-177:
`_, retcode, *data = self.parse(accum_end)`; a positive `retcode` raises
`TclError(message, retcode, self.parse(code), info)` from
`message, code, info = data`; otherwise `data[0]` is returned.  `value` and
`tclError` also carry the input lines left unread, i.e. the position of the
stream for the session's next request.  Note `accum` (the captured stdout
lines) is not consulted. -/
def interactFinish : LoopResult → InteractOut
  | .hang => .hang
  | .pyFail => .pyError "ValueError"
  | .ok _accum accumEnd rest =>
    match parseModel accumEnd with
    | .error _ => .pyError "TclParseError"
    | .ok (_ :: retStr :: data) =>
      match pyInt retStr with
      | none => .pyError "ValueError"
      | some ret =>
        if ret > 0 then
          match data with
          | [message, code, info] =>
            match parseModel code with
            | .error _ => .pyError "TclParseError"
            | .ok codeList => .tclError message ret codeList info rest
          | _ => .pyError "ValueError"
        else
          match data with
          | v :: _ => .value v rest
          | [] => .pyError "IndexError"
    | .ok _ => .pyError "ValueError"

/-- One full `interact` call with the debug log threaded through: run the
read loop (the command's own debug echo `'(tcl) <<< ' + line` seeds the
log), then decode via `interactFinish`. -/
def interactModelD (debug : Bool) (line sS sM sE : String) (lines : List String) :
    InteractOut × List String :=
  (interactFinish (interactLoopD debug sS sM sE 0 0 "" ""
      lines (if debug then ["(tcl) <<< " ++ line] else [])).1,
   (interactLoopD debug sS sM sE 0 0 "" ""
      lines (if debug then ["(tcl) <<< " ++ line] else [])).2)

/-- `interact` without debug instrumentation (the returned value/raised
error of the request). -/
def interactModel (sS sM sE : String) (lines : List String) : InteractOut :=
  (interactModelD false "" sS sM sE lines).1

/-! ### The facade (`QuartusTcl.run_args` lines 257-279, `__getattr__` 281-282) -/

/-- Python `' '.join(parts)`. -/
def pyJoinSpace : List String → String
  | [] => ""
  | [x] => x
  | x :: y :: t => x ++ " " ++ pyJoinSpace (y :: t)

/-- The command string built by `QuartusTcl.run_args`: the bare command name,
each positional argument quoted, then for each keyword entry `-key` followed
by the quoted value, in mapping insertion order, all joined by spaces.  This
string is handed to `run`, which (having no format arguments) passes it
unchanged to `interact`. -/
def runArgsLine (cmd : String) (args : List String) (kwargs : List (String × String)) : String :=
  pyJoinSpace (cmd :: (args.map quote ++ kwargs.flatMap (fun kv => ["-" ++ kv.1, quote kv.2])))

/-- `QuartusTcl.__getattr__`: an unknown attribute name becomes
`functools.partial(self.run_args, attr)`, so invoking it builds the same
command line through `run_args`. -/
def getattrCall (attr : String) (args : List String) (kwargs : List (String × String)) : String :=
  runArgsLine attr args kwargs

/-! ### The transport session close (spec section 4.1)

`src/quartustcl/__init__.py` has no `close` method; the repository's tests
call `q.close()` and use the session as a context manager, so `close` is
code of this repository missing from `src/`. -/

/-- Modelled from the spec: the Transport session state — the spec's `close`
is missing from `src/` (only the tests call it).  Spec 4.1: one live
subprocess with stream handles and a closed flag; `close()` terminates the
subprocess and releases streams; `terminateCount` counts subprocess
terminations so that idempotence ("exactly once") is observable. -/
structure TransportSession where
  closed : Bool
  terminateCount : Nat
deriving DecidableEq

/-- The invalid-state error raised by operations on a closed session. -/
inductive SessionError where
  | invalidState
deriving DecidableEq

/-- Modelled from the spec: `close()` terminates the subprocess and releases
streams, idempotent — a second `close()` is a no-op. -/
def closeSession (s : TransportSession) : TransportSession :=
  if s.closed then s else ⟨true, s.terminateCount + 1⟩

/-- Modelled from the spec: `send(text)` writes a line; after close it fails
with an invalid-state error. -/
def sendLine (s : TransportSession) (_line : String) : Except SessionError TransportSession :=
  if s.closed then .error .invalidState else .ok s

/-- Modelled from the spec: `receiveLine()` blocks for one line; after close
it fails with an invalid-state error. -/
def receiveLine (s : TransportSession) (input : String) : Except SessionError String :=
  if s.closed then .error .invalidState else .ok input

instance {ε α : Type} [DecidableEq ε] [DecidableEq α] : DecidableEq (Except ε α) := fun x y =>
  match x, y with
  | .error a, .error b =>
    if h : a = b then isTrue (by rw [h]) else isFalse (fun hh => h (Except.error.inj hh))
  | .ok a, .ok b =>
    if h : a = b then isTrue (by rw [h]) else isFalse (fun hh => h (Except.ok.inj hh))
  | .error _, .ok _ => isFalse (fun hh => Except.noConfusion hh)
  | .ok _, .error _ => isFalse (fun hh => Except.noConfusion hh)

/-! ## Helper lemmas -/

theorem strApp_data (a b : String) : (a ++ b).data = a.data ++ b.data :=
  String.data_append a b

theorem strWrap_inj (pre suf u₁ u₂ : String)
    (h : pre ++ u₁ ++ suf = pre ++ u₂ ++ suf) : u₁ = u₂ := by
  have hd := congrArg String.data h
  rw [strApp_data, strApp_data, strApp_data, strApp_data, List.append_assoc,
    List.append_assoc] at hd
  exact String.ext (List.append_cancel_right (List.append_cancel_left hd))

theorem rep1_append (n : Char) (r a b : List Char) :
    rep1 n r (a ++ b) = rep1 n r a ++ rep1 n r b := by
  induction a with
  | nil => rfl
  | cons c t ih => simp [rep1, ih]

/-- Independent per-character description of the escaping pass of `quote`:
each backslash and each brace is prefixed by a backslash. -/
def escSpecChar (c : Char) : List Char :=
  if c == '\\' || c == '{' || c == '}' then ['\\', c] else [c]

theorem quoteEscape_cons (c : Char) (t : List Char) :
    quoteEscape (c :: t) = escSpecChar c ++ quoteEscape t := by
  have hct : (c :: t : List Char) = [c] ++ t := rfl
  by_cases h1 : c = '\\'
  · subst h1; simp [quoteEscape, hct, rep1_append, rep1, escSpecChar]
  · by_cases h2 : c = '{'
    · subst h2; simp [quoteEscape, hct, rep1_append, rep1, escSpecChar]
    · by_cases h3 : c = '}'
      · subst h3; simp [quoteEscape, hct, rep1_append, rep1, escSpecChar]
      · simp [quoteEscape, hct, rep1_append, rep1, escSpecChar, h1, h2, h3]

theorem quoteEscape_eq_flatMap (l : List Char) :
    quoteEscape l = l.flatMap escSpecChar := by
  induction l with
  | nil => rfl
  | cons c t ih => rw [quoteEscape_cons, ih, List.flatMap_cons]

/-! ## Claims -/

/-- Claim C1 (code bug).  The spec claims `evaluate(quote(x)) == x` for every
string x, including mixes of backslashes; so does `quote`'s docstring.  At
the input consisting of one backslash, `quote` takes its cheap path (the
input contains no brace) and produces `\x7b\\\x7d`, in which the backslash
escapes the closing delimiter: the brace-quoted word never terminates (Tcl's
"missing close-brace"), so evaluation yields no value at all, let alone the
original string. -/
theorem quote_trailing_backslash_not_lossless :
    quote "\\" = "\x7b\\\x7d" ∧ tclEvalWord (quote "\\") = none :=
  ⟨rfl, rfl⟩

/-- Claim C2 (counterexample).  Sentinel identifiers are derived from
`hash(time.time())`, not from a per-session counter: two distinct requests
(indices 0 and 1 of the session's request sequence) issued while the clock
reading hashes to the same value receive identical sentinel sets, falsifying
"for every pair of distinct requests, their sentinel identifiers are
distinct". -/
theorem sentinels_collide_on_equal_clock :
    (requestSentinels [12345, 12345])[0]? = (requestSentinels [12345, 12345])[1]?
      ∧ (0 : Nat) ≠ 1 :=
  ⟨rfl, by decide⟩

/-- Claim C2 (amended).  The sentinel identifiers are a function of the hash
of the wall-clock reading observed at the start of each request
(`str(hash(time.time()))`); requests whose clock-reading hashes render to
distinct identifier strings obtain distinct start, middle and end sentinels
(and hence distinct sentinel sets), while requests observing equal clock
readings collide. -/
theorem sentinels_distinct_iff_distinct_hash (h₁ h₂ : Int)
    (hne : sentinelUnique h₁ ≠ sentinelUnique h₂) :
    sentinelStartOf h₁ ≠ sentinelStartOf h₂ ∧
    sentinelMiddleOf h₁ ≠ sentinelMiddleOf h₂ ∧
    sentinelEndOf h₁ ≠ sentinelEndOf h₂ ∧
    sentinelSet h₁ ≠ sentinelSet h₂ := by
  refine ⟨?_, ?_, ?_, ?_⟩
  · intro h
    exact hne (strWrap_inj (sentinelBase ++ "_") "_START" _ _ (by
      simpa [sentinelStartOf, String.append_assoc] using h))
  · intro h
    exact hne (strWrap_inj (sentinelBase ++ "_") "_MIDDLE" _ _ (by
      simpa [sentinelMiddleOf, String.append_assoc] using h))
  · intro h
    exact hne (strWrap_inj (sentinelBase ++ "_") "_END" _ _ (by
      simpa [sentinelEndOf, String.append_assoc] using h))
  · intro h
    exact hne (strWrap_inj (sentinelBase ++ "_") "_START" _ _ (by
      have := congrArg SentinelSet.first h
      simpa [sentinelSet, sentinelStartOf, String.append_assoc] using this))

/-- Witness for the amended C2 theorem at the clock hashes 0 and 1. -/
theorem sentinels_distinct_iff_distinct_hash_witness :
    sentinelStartOf 0 ≠ sentinelStartOf 1 ∧
    sentinelMiddleOf 0 ≠ sentinelMiddleOf 1 ∧
    sentinelEndOf 0 ≠ sentinelEndOf 1 ∧
    sentinelSet 0 ≠ sentinelSet 1 :=
  sentinels_distinct_iff_distinct_hash 0 1 (by decide)

/-- Claim C7.  `quote` has exactly two branches: when the data contains
neither grouping delimiter it is wrapped directly in braces with no character
altered (never double-escaped); when it contains either delimiter, every
backslash and every brace is prefixed with a backslash and the result is
wrapped in `[subst -nocommands -novariables \x7b...\x7d]` — the
substitution construct with variable and command substitution disabled,
itself inside a brace-delimited block. -/
theorem quote_has_two_branches (s : String) :
    (containsBrace s = false → quote s = "\x7b" ++ s ++ "\x7d") ∧
    (containsBrace s = true →
      quote s = "[subst -nocommands -novariables \x7b" ++
        String.mk (s.data.flatMap escSpecChar) ++ "\x7d]") := by
  constructor
  · intro h; simp [quote, h]
  · intro h; simp [quote, h, quoteEscape_eq_flatMap]

/-- Witness for C7: the cheap branch at `"a"`, the escaping branch at a
lone open brace. -/
theorem quote_has_two_branches_witness :
    quote "a" = "\x7b" ++ "a" ++ "\x7d" ∧
    quote "\x7b" = "[subst -nocommands -novariables \x7b" ++
      String.mk ("\x7b".data.flatMap escSpecChar) ++ "\x7d]" :=
  ⟨(quote_has_two_branches "a").1 rfl, (quote_has_two_branches "\x7b").2 rfl⟩

theorem pyJoinSpace_append_last (x : String) (xs : List String) (y : String) :
    pyJoinSpace (x :: (xs ++ [y])) = pyJoinSpace (x :: xs) ++ " " ++ y := by
  induction xs generalizing x with
  | nil => rfl
  | cons z zs ih =>
    show x ++ " " ++ pyJoinSpace (z :: (zs ++ [y])) = _
    rw [ih z]
    simp [pyJoinSpace, String.append_assoc]

/-- Claim C8.  The facade builds the command string as the bare name, then
each positional argument quoted, in order, then for each keyword entry in
insertion order the flag `-key` followed by the quoted value; and unknown
attribute access dispatches to exactly this generic invocation. -/
theorem run_args_builds_command :
    (∀ cmd, runArgsLine cmd [] [] = cmd) ∧
    (∀ cmd args a, runArgsLine cmd (args ++ [a]) [] =
        runArgsLine cmd args [] ++ " " ++ quote a) ∧
    (∀ cmd args kwargs k v,
        runArgsLine cmd args (kwargs ++ [(k, v)]) =
          runArgsLine cmd args kwargs ++ " " ++ ("-" ++ k) ++ " " ++ quote v) ∧
    (∀ attr args kwargs, getattrCall attr args kwargs = runArgsLine attr args kwargs) ∧
    runArgsLine "get_device_names" [] [("hardware_name", "Foo Bar")] =
      "get_device_names -hardware_name \x7bFoo Bar\x7d" := by
  refine ⟨fun cmd => rfl, ?_, ?_, fun attr args kwargs => rfl, rfl⟩
  · intro cmd args a
    simp [runArgsLine, pyJoinSpace_append_last]
  · intro cmd args kwargs k v
    have hflat : (kwargs ++ [(k, v)]).flatMap
        (fun kv => ["-" ++ kv.1, quote kv.2]) =
        kwargs.flatMap (fun kv => ["-" ++ kv.1, quote kv.2]) ++ ["-" ++ k, quote v] := by
      rw [List.flatMap_append]; rfl
    have hsplit : args.map quote ++
        (kwargs.flatMap (fun kv => ["-" ++ kv.1, quote kv.2]) ++ ["-" ++ k, quote v]) =
        ((args.map quote ++ kwargs.flatMap (fun kv => ["-" ++ kv.1, quote kv.2]))
          ++ ["-" ++ k]) ++ [quote v] := by
      simp [List.append_assoc]
    rw [runArgsLine, hflat, hsplit, pyJoinSpace_append_last]
    have : (cmd :: (args.map quote ++ kwargs.flatMap (fun kv => ["-" ++ kv.1, quote kv.2])
        ++ ["-" ++ k]) : List String) =
        cmd :: ((args.map quote ++ kwargs.flatMap (fun kv => ["-" ++ kv.1, quote kv.2]))
          ++ ["-" ++ k]) := by simp [List.append_assoc]
    rw [this, pyJoinSpace_append_last]
    rfl

/-- Claim C3 (spec-modelled).  The depth-parametrized parser: depth 0
returns the text unchanged; depth n+1 splits the text into top-level
elements of the list grammar (balanced nested braces, non-nesting double
quotes) and recursively parses each element at depth n; in particular the
spec's example at depth 2 and, for the double-quote grouping, the
repository test's single-level example. -/
theorem parse_depth_behavior :
    (∀ text, parseSpec 0 text = .ok (.str text)) ∧
    (∀ n text, parseSpec (n + 1) text =
        match listElems text with
        | .error _ => .error text
        | .ok parts => (parts.mapM (parseSpec n)).map PyVal.lst) ∧
    parseSpec 2 "\x7b1 2\x7d \x7b3 4\x7d \x7b5 6\x7d" =
      .ok (.lst [.lst [.str "1", .str "2"], .lst [.str "3", .str "4"],
                 .lst [.str "5", .str "6"]]) ∧
    parseSpec 1 "\"hello world\" 2 3" =
      .ok (.lst [.str "hello world", .str "2", .str "3"]) :=
  ⟨fun _ => rfl, fun _ _ => rfl, rfl, rfl⟩

/-- Claim C5 (counterexample).  `parse`'s failure condition is not
well-formedness under the list grammar: the list-malformed text `\x7ba\x7d;`
(a brace group followed by a semicolon instead of a space) is accepted,
because the embedded interpreter evaluates `list \x7ba\x7d;` as a script in
which the semicolon merely terminates the command; and the well-formed
single-element list `$no_such_variable` raises a ParseError, because the
script evaluation attempts variable substitution on it. -/
theorem parse_grammar_mismatch_counterexample :
    (listWellFormed "\x7ba\x7d;" = false ∧ parseModel "\x7ba\x7d;" = .ok ["a"]) ∧
    (listWellFormed "$no_such_variable" = true ∧
      parseModel "$no_such_variable" = .error (tclParseErrMsg "$no_such_variable")) :=
  ⟨⟨rfl, rfl⟩, ⟨rfl, rfl⟩⟩

/-- Claim C5 (amended).  `parse` raises a ParseError exactly when the
embedded interpreter fails to evaluate `list <text>` (which coincides with
list-grammar ill-formedness on delimiter errors such as `broken \x7b`, but
not in general); every ParseError carries the raw (stripped) offending text
in its message, and whenever the script evaluation succeeds no ParseError is
raised. -/
theorem parse_fails_with_raw_text :
    parseModel "broken \x7b" = .error (tclParseErrMsg "broken \x7b") ∧
    (∀ data e, parseModel data = .error e → e = tclParseErrMsg (pyStrip data)) ∧
    (∀ data ws, scriptWords (pyStrip data) = .ok ws → parseModel data = .ok ws) := by
  refine ⟨rfl, ?_, ?_⟩
  · intro data e h
    unfold parseModel at h
    cases hs : scriptWords (pyStrip data) with
    | ok ws => rw [hs] at h; exact Except.noConfusion h
    | error u => rw [hs] at h; exact (Except.error.inj h).symm
  · intro data ws hs
    unfold parseModel
    rw [hs]

/-- Witness for the amended C5 theorem: the error message at a concrete
malformed input, and success at a concrete well-formed input. -/
theorem parse_fails_with_raw_text_witness :
    tclParseErrMsg "x \x7b" = tclParseErrMsg (pyStrip "x \x7b") ∧
    parseModel "1 2" = .ok ["1", "2"] :=
  ⟨parse_fails_with_raw_text.2.1 "x \x7b" (tclParseErrMsg "x \x7b") rfl,
   parse_fails_with_raw_text.2.2 "1 2" ["1", "2"] rfl⟩

/-- Claim C6 (spec-modelled).  After `close()` every operation fails with
the invalid-state error; a second `close()` is a no-op, and the subprocess
is terminated exactly once (the termination count increases only on the
first close). -/
theorem close_invalidates_and_is_idempotent (s : TransportSession) (line input : String) :
    sendLine (closeSession s) line = .error .invalidState ∧
    receiveLine (closeSession s) input = .error .invalidState ∧
    closeSession (closeSession s) = closeSession s ∧
    (s.closed = false → (closeSession s).terminateCount = s.terminateCount + 1) ∧
    (s.closed = true → closeSession s = s) := by
  by_cases h : s.closed = true
  · simp [closeSession, sendLine, receiveLine, h]
  · simp [closeSession, sendLine, receiveLine, h]

/-- Witness for C6 at concrete sessions: closing an open session
invalidates it and terminates once; closing a closed session changes
nothing. -/
theorem close_invalidates_witness :
    sendLine (closeSession ⟨false, 3⟩) "cmd" = .error .invalidState ∧
    (closeSession ⟨false, 3⟩).terminateCount = 3 + 1 ∧
    closeSession ⟨true, 5⟩ = ⟨true, 5⟩ :=
  ⟨(close_invalidates_and_is_idempotent ⟨false, 3⟩ "cmd" "").1,
   (close_invalidates_and_is_idempotent ⟨false, 3⟩ "cmd" "").2.2.2.1 rfl,
   (close_invalidates_and_is_idempotent ⟨true, 5⟩ "" "").2.2.2.2 rfl⟩

/-! ## Loop stepping lemmas for `interact` -/

/-- Concatenation of a list of lines, as `accum += outline` accumulates. -/
def strConcat : List String → String
  | [] => ""
  | l :: t => l ++ strConcat t

theorem interactModel_eq (sS sM sE : String) (lines : List String) :
    interactModel sS sM sE lines =
      interactFinish (interactLoopD false sS sM sE 0 0 "" "" lines []).1 := rfl

theorem loop_state0_skip (sS sM sE : String) :
    ∀ (pre : List String), (∀ l ∈ pre, pyEndsWith (pyStrip l) sS = false) →
    ∀ (rest : List String) (errVal : Int) (accum accumEnd : String) (log : List String),
      interactLoopD false sS sM sE 0 errVal accum accumEnd (pre ++ rest) log =
      interactLoopD false sS sM sE 0 errVal accum accumEnd rest log := by
  intro pre
  induction pre with
  | nil => intro _ rest errVal accum accumEnd log; rfl
  | cons p ps ih =>
    intro h rest errVal accum accumEnd log
    have hp : pyEndsWith (pyStrip p) sS = false := h p (by simp)
    have step : interactLoopD false sS sM sE 0 errVal accum accumEnd (p :: (ps ++ rest)) log =
        interactLoopD false sS sM sE 0 errVal accum accumEnd (ps ++ rest) log := by
      simp [interactLoopD, hp]
    rw [List.cons_append, step]
    exact ih (fun l hl => h l (by simp [hl])) rest errVal accum accumEnd log

theorem loop_start_step (sS sM sE l0 : String) (h : pyEndsWith (pyStrip l0) sS = true)
    (rest : List String) (errVal : Int) (accum accumEnd : String) (log : List String) :
    interactLoopD false sS sM sE 0 errVal accum accumEnd (l0 :: rest) log =
    interactLoopD false sS sM sE 1 errVal accum accumEnd rest log := by
  simp [interactLoopD, h]

theorem loop_state1_accum (sS sM sE : String) :
    ∀ (body : List String), (∀ l ∈ body, pyStartsWith l sM = false) →
    ∀ (rest : List String) (errVal : Int) (accum accumEnd : String) (log : List String),
      interactLoopD false sS sM sE 1 errVal accum accumEnd (body ++ rest) log =
      interactLoopD false sS sM sE 1 errVal (accum ++ strConcat body) accumEnd rest log := by
  intro body
  induction body with
  | nil =>
    intro _ rest errVal accum accumEnd log
    simp [strConcat]
  | cons p ps ih =>
    intro h rest errVal accum accumEnd log
    have hp : pyStartsWith p sM = false := h p (by simp)
    have step : interactLoopD false sS sM sE 1 errVal accum accumEnd (p :: (ps ++ rest)) log =
        interactLoopD false sS sM sE 1 errVal (accum ++ p) accumEnd (ps ++ rest) log := by
      simp [interactLoopD, hp]
    rw [List.cons_append, step,
      ih (fun l hl => h l (by simp [hl])) rest errVal (accum ++ p) accumEnd log,
      String.append_assoc]
    rfl

theorem loop_mid_step (sS sM sE lm w1 w2 w3 : String) (err : Int)
    (hm : pyStartsWith lm sM = true)
    (hsp : pySplitSpace2 lm = [w1, w2, w3])
    (hint : pyInt w2 = some err)
    (rest : List String) (errVal : Int) (accum accumEnd : String) (log : List String) :
    interactLoopD false sS sM sE 1 errVal accum accumEnd (lm :: rest) log =
    interactLoopD false sS sM sE 2 err accum (accumEnd ++ lm) rest log := by
  simp [interactLoopD, hm, hsp, hint]

theorem loop_state2_accum (sS sM sE : String) :
    ∀ (ext : List String), (∀ l ∈ ext, pyStartsWith l sE = false) →
    ∀ (rest : List String) (errVal : Int) (accum accumEnd : String) (log : List String),
      interactLoopD false sS sM sE 2 errVal accum accumEnd (ext ++ rest) log =
      interactLoopD false sS sM sE 2 errVal accum (accumEnd ++ strConcat ext) rest log := by
  intro ext
  induction ext with
  | nil =>
    intro _ rest errVal accum accumEnd log
    simp [strConcat]
  | cons p ps ih =>
    intro h rest errVal accum accumEnd log
    have hp : pyStartsWith p sE = false := h p (by simp)
    have step : interactLoopD false sS sM sE 2 errVal accum accumEnd (p :: (ps ++ rest)) log =
        interactLoopD false sS sM sE 2 errVal accum (accumEnd ++ p) (ps ++ rest) log := by
      simp [interactLoopD, hp]
    rw [List.cons_append, step,
      ih (fun l hl => h l (by simp [hl])) rest errVal accum (accumEnd ++ p) log,
      String.append_assoc]
    rfl

theorem loop_end_step (sS sM sE le : String) (he : pyStartsWith le sE = true)
    (rest : List String) (errVal : Int) (accum accumEnd : String) (log : List String) :
    interactLoopD false sS sM sE 2 errVal accum accumEnd (le :: rest) log =
      (.ok accum accumEnd rest, log) := by
  simp [interactLoopD, he]

/-- One protocol-conformant exchange, end to end through the read loop:
discard `pre`, match the start line, accumulate `body` into `accum`,
process the middle line, accumulate `ext` into `accum_end`, stop at the end
line — leaving `rest` unread. -/
theorem loop_protocol_run (sS sM sE l0 lm le w1 w2 w3 : String) (err : Int)
    (pre body ext rest : List String)
    (hpre : ∀ l ∈ pre, pyEndsWith (pyStrip l) sS = false)
    (hl0 : pyEndsWith (pyStrip l0) sS = true)
    (hbody : ∀ l ∈ body, pyStartsWith l sM = false)
    (hlm : pyStartsWith lm sM = true)
    (hsp : pySplitSpace2 lm = [w1, w2, w3])
    (hint : pyInt w2 = some err)
    (hext : ∀ l ∈ ext, pyStartsWith l sE = false)
    (hle : pyStartsWith le sE = true) :
    interactLoopD false sS sM sE 0 0 "" ""
        (pre ++ l0 :: (body ++ lm :: (ext ++ le :: rest))) [] =
      (.ok (strConcat body) (lm ++ strConcat ext) rest, []) := by
  rw [loop_state0_skip sS sM sE pre hpre,
    loop_start_step sS sM sE l0 hl0,
    loop_state1_accum sS sM sE body hbody,
    loop_mid_step sS sM sE lm w1 w2 w3 err hlm hsp hint,
    loop_state2_accum sS sM sE ext hext,
    loop_end_step sS sM sE le hle]
  simp [String.empty_append]

/-- Claim C4 (amended).  For a protocol-conformant exchange, the request
raises `TclError` if and only if the return code reported in the
middle-sentinel trailer is positive (not merely nonzero: a negative code,
which the shell-side `if` also reports through the five-element error
trailer, makes the request return normally).  When it raises, the error
carries the message, the numeric return code, the classification parsed as
a list, and the diagnostic trace; on a nonpositive code the request returns
the trailer's payload value and the stream is left just past the end
sentinel, so the session remains usable. -/
theorem interact_raises_iff_positive_code (sS sM sE l0 lm le w1 w2 w3 retStr m0 : String)
    (err ret : Int) (pre body ext rest data : List String)
    (hpre : ∀ l ∈ pre, pyEndsWith (pyStrip l) sS = false)
    (hl0 : pyEndsWith (pyStrip l0) sS = true)
    (hbody : ∀ l ∈ body, pyStartsWith l sM = false)
    (hlm : pyStartsWith lm sM = true)
    (hsp : pySplitSpace2 lm = [w1, w2, w3])
    (hint : pyInt w2 = some err)
    (hext : ∀ l ∈ ext, pyStartsWith l sE = false)
    (hle : pyStartsWith le sE = true)
    (hparse : parseModel (lm ++ strConcat ext) = .ok (m0 :: retStr :: data))
    (hret : pyInt retStr = some ret) :
    (∀ message code info codeList, data = [message, code, info] →
        parseModel code = .ok codeList → 0 < ret →
        interactModel sS sM sE (pre ++ l0 :: (body ++ lm :: (ext ++ le :: rest))) =
          .tclError message ret codeList info rest) ∧
    (∀ v ds, data = v :: ds → ret ≤ 0 →
        interactModel sS sM sE (pre ++ l0 :: (body ++ lm :: (ext ++ le :: rest))) =
          .value v rest) := by
  have hloop := loop_protocol_run sS sM sE l0 lm le w1 w2 w3 err pre body ext rest
    hpre hl0 hbody hlm hsp hint hext hle
  constructor
  · intro message code info codeList hdata hcode hpos
    subst hdata
    rw [interactModel_eq, hloop]
    simp only [interactFinish, hparse, hret]
    rw [if_pos hpos]
    simp only [hcode]
  · intro v ds hdata hnp
    subst hdata
    rw [interactModel_eq, hloop]
    simp only [interactFinish, hparse, hret]
    rw [if_neg (not_lt.mpr hnp)]

/-- Witness for the amended C4 theorem: a concrete erroring exchange
(return code 1) raises the `TclError` with all four fields. -/
theorem interact_raises_iff_positive_code_witness :
    interactModel "_PYTHON_SENTINEL_8_START" "_PYTHON_SENTINEL_8_MIDDLE"
      "_PYTHON_SENTINEL_8_END"
      ["_PYTHON_SENTINEL_8_START\n",
       "_PYTHON_SENTINEL_8_MIDDLE 1 \x7bboom\x7d NONE \x7btrace line\x7d\n",
       "_PYTHON_SENTINEL_8_END\n"]
      = .tclError "boom" 1 ["NONE"] "trace line" [] :=
  (interact_raises_iff_positive_code "_PYTHON_SENTINEL_8_START"
      "_PYTHON_SENTINEL_8_MIDDLE" "_PYTHON_SENTINEL_8_END"
      "_PYTHON_SENTINEL_8_START\n"
      "_PYTHON_SENTINEL_8_MIDDLE 1 \x7bboom\x7d NONE \x7btrace line\x7d\n"
      "_PYTHON_SENTINEL_8_END\n"
      "_PYTHON_SENTINEL_8_MIDDLE" "1" "\x7bboom\x7d NONE \x7btrace line\x7d\n" "1"
      "_PYTHON_SENTINEL_8_MIDDLE" 1 1 [] [] [] []
      ["boom", "NONE", "trace line"]
      (by simp) rfl (by simp) rfl rfl rfl (by simp) rfl rfl rfl).1
    "boom" "NONE" "trace line" ["NONE"] rfl rfl (by decide)

/-- Claim C4 (counterexample to the claim as stated).  The shell reports the
nonzero return code -1 in the middle-sentinel trailer (the five-element
error format), yet `interact` does not raise: it returns the payload
normally, because the source tests `retcode > 0`, not `retcode != 0`. -/
theorem interact_negative_code_returns_normally :
    interactModel "_PYTHON_SENTINEL_9_START" "_PYTHON_SENTINEL_9_MIDDLE"
      "_PYTHON_SENTINEL_9_END"
      ["_PYTHON_SENTINEL_9_START\n",
       "_PYTHON_SENTINEL_9_MIDDLE -1 \x7bboom\x7d NONE \x7btrace line\x7d\n",
       "_PYTHON_SENTINEL_9_END\n"]
      = .value "boom" [] ∧ (-1 : Int) ≠ 0 :=
  ⟨rfl, by decide⟩

/-- Claim C10.  On a zero return code, `interact` returns only the payload
value from the middle-sentinel trailer; the stdout lines the command printed
between the start and middle sentinels are accumulated separately (in
`accum`, whose value is exactly their concatenation) and never appear in the
returned value — which is the same for every such `body`. -/
theorem interact_discards_captured_stdout (sS sM sE l0 lm le w1 w2 w3 retStr m0 v : String)
    (err : Int) (pre body ext rest ds : List String)
    (hpre : ∀ l ∈ pre, pyEndsWith (pyStrip l) sS = false)
    (hl0 : pyEndsWith (pyStrip l0) sS = true)
    (hbody : ∀ l ∈ body, pyStartsWith l sM = false)
    (hlm : pyStartsWith lm sM = true)
    (hsp : pySplitSpace2 lm = [w1, w2, w3])
    (hint : pyInt w2 = some err)
    (hext : ∀ l ∈ ext, pyStartsWith l sE = false)
    (hle : pyStartsWith le sE = true)
    (hparse : parseModel (lm ++ strConcat ext) = .ok (m0 :: retStr :: v :: ds))
    (hret : pyInt retStr = some 0) :
    (interactLoopD false sS sM sE 0 0 "" ""
        (pre ++ l0 :: (body ++ lm :: (ext ++ le :: rest))) []).1
      = .ok (strConcat body) (lm ++ strConcat ext) rest ∧
    interactModel sS sM sE (pre ++ l0 :: (body ++ lm :: (ext ++ le :: rest))) =
      .value v rest := by
  have hloop := loop_protocol_run sS sM sE l0 lm le w1 w2 w3 err pre body ext rest
    hpre hl0 hbody hlm hsp hint hext hle
  constructor
  · rw [hloop]
  · rw [interactModel_eq, hloop]
    simp only [interactFinish, hparse, hret]
    rw [if_neg (by decide : ¬ ((0 : Int) > 0))]

/-- Witness for C10: a concrete successful exchange whose captured stdout
line `noise` is discarded — the result is the trailer's value alone. -/
theorem interact_discards_captured_stdout_witness :
    (interactLoopD false "_PYTHON_SENTINEL_5_START" "_PYTHON_SENTINEL_5_MIDDLE"
        "_PYTHON_SENTINEL_5_END" 0 0 "" ""
        ["_PYTHON_SENTINEL_5_START\n", "noise\n",
         "_PYTHON_SENTINEL_5_MIDDLE 0 \x7bval x\x7d\n",
         "_PYTHON_SENTINEL_5_END\n"] []).1
      = .ok (strConcat ["noise\n"])
          ("_PYTHON_SENTINEL_5_MIDDLE 0 \x7bval x\x7d\n" ++ strConcat []) [] ∧
    interactModel "_PYTHON_SENTINEL_5_START" "_PYTHON_SENTINEL_5_MIDDLE"
      "_PYTHON_SENTINEL_5_END"
      ["_PYTHON_SENTINEL_5_START\n", "noise\n",
       "_PYTHON_SENTINEL_5_MIDDLE 0 \x7bval x\x7d\n",
       "_PYTHON_SENTINEL_5_END\n"] = .value "val x" [] :=
  interact_discards_captured_stdout "_PYTHON_SENTINEL_5_START"
    "_PYTHON_SENTINEL_5_MIDDLE" "_PYTHON_SENTINEL_5_END"
    "_PYTHON_SENTINEL_5_START\n"
    "_PYTHON_SENTINEL_5_MIDDLE 0 \x7bval x\x7d\n"
    "_PYTHON_SENTINEL_5_END\n"
    "_PYTHON_SENTINEL_5_MIDDLE" "0" "\x7bval x\x7d\n" "0"
    "_PYTHON_SENTINEL_5_MIDDLE" "val x" 0 [] ["noise\n"] [] [] []
    (by decide) rfl (by decide) rfl rfl rfl (by decide) rfl rfl rfl

theorem loopD_cons_step (debug : Bool) (sS sM sE : String) (state : Nat) (errVal : Int)
    (accum accumEnd l : String) (rest log : List String) :
    interactLoopD debug sS sM sE state errVal accum accumEnd (l :: rest) log =
      if state = 0 then
        if pyEndsWith (pyStrip l) sS then
          interactLoopD debug sS sM sE 1 errVal accum accumEnd rest log
        else
          interactLoopD debug sS sM sE 0 errVal accum accumEnd rest log
      else if state = 1 then
        if pyStartsWith l sM then
          match pySplitSpace2 l with
          | [_, e, extra] =>
            match pyInt e with
            | some err =>
              interactLoopD debug sS sM sE 2 err accum (accumEnd ++ l) rest
                (if debug && extra ≠ "" && err == 0 then log ++ [dbgRecv extra] else log)
            | none => (.pyFail, log)
          | _ => (.pyFail, log)
        else
          interactLoopD debug sS sM sE 1 errVal (accum ++ l) accumEnd rest
            (if debug && l ≠ "" then log ++ [dbgRecv l] else log)
      else
        if pyStartsWith l sE then (.ok accum accumEnd rest, log)
        else
          interactLoopD debug sS sM sE 2 errVal accum (accumEnd ++ l) rest
            (if debug && l ≠ "" && errVal == 0 then log ++ [dbgRecv l] else log) := by
  simp only [interactLoopD]

theorem loopD_fst_ignores_debug (sS sM sE : String) :
    ∀ (lines : List String) (state : Nat) (errVal : Int) (accum accumEnd : String)
      (log₁ log₂ : List String),
      (interactLoopD true sS sM sE state errVal accum accumEnd lines log₁).1 =
      (interactLoopD false sS sM sE state errVal accum accumEnd lines log₂).1 := by
  intro lines
  induction lines with
  | nil => intro state errVal accum accumEnd log₁ log₂; rfl
  | cons l rest ih =>
    intro state errVal accum accumEnd log₁ log₂
    rw [loopD_cons_step true, loopD_cons_step false]
    by_cases h0 : state = 0
    · rw [if_pos h0, if_pos h0]
      by_cases hs : pyEndsWith (pyStrip l) sS = true
      · rw [if_pos hs, if_pos hs]
        exact ih 1 errVal accum accumEnd log₁ log₂
      · rw [if_neg hs, if_neg hs]
        exact ih 0 errVal accum accumEnd log₁ log₂
    · rw [if_neg h0, if_neg h0]
      by_cases h1 : state = 1
      · rw [if_pos h1, if_pos h1]
        by_cases hm : pyStartsWith l sM = true
        · rw [if_pos hm, if_pos hm]
          generalize pySplitSpace2 l = parts
          match parts with
          | [] => rfl
          | [_] => rfl
          | [_, _] => rfl
          | _ :: _ :: _ :: _ :: _ => rfl
          | [_, b, _] =>
            cases hpi : pyInt b with
            | none => simp [hpi]
            | some e =>
              simp only [hpi]
              exact ih 2 e accum (accumEnd ++ l) _ _
        · rw [if_neg hm, if_neg hm]
          exact ih 1 errVal (accum ++ l) accumEnd _ _
      · rw [if_neg h1, if_neg h1]
        by_cases he : pyStartsWith l sE = true
        · rw [if_pos he, if_pos he]
        · rw [if_neg he, if_neg he]
          exact ih 2 errVal accum (accumEnd ++ l) _ _

/-- Claim C9.  Debug output is a pure side channel: for every command line,
sentinel set and subprocess output stream, the request's result — returned
value or raised error alike — is identical with `debug=True` and
`debug=False`; the debug log never feeds into the result. -/
theorem interact_debug_is_side_channel (sS sM sE line : String) (lines : List String) :
    (interactModelD true line sS sM sE lines).1 =
    (interactModelD false line sS sM sE lines).1 :=
  congrArg interactFinish
    (loopD_fst_ignores_debug sS sM sE lines 0 0 "" "" ["(tcl) <<< " ++ line] [])

/-! ## Evaluation sanity checks -/

example : parseModel "1 2 3" = .ok ["1", "2", "3"] := rfl
example : parseModel "\"hello world\" 2 3" = .ok ["hello world", "2", "3"] := rfl
example : parseModel "" = .ok [] := rfl
example : parseModel "broken \x7b" =
    .error "Tcl list could not be parsed: \x27broken \x7b\x27" := rfl
example : parseModel "\x7ba\x7d;" = .ok ["a"] := rfl
example : listWellFormed "\x7ba\x7d;" = false := by decide
example : parseModel "$no_such_variable" =
    .error (tclParseErrMsg "$no_such_variable") := rfl
example : listWellFormed "$no_such_variable" = true := by decide
example : listWellFormed "broken \x7b" = false := by decide
example : parseModel " \x7ba b\x7d \x7bc\x7d \n" = .ok ["a b", "c"] := rfl
example : parseSpec 2 "\x7b1 2\x7d \x7b3 4\x7d \x7b5 6\x7d" =
    .ok (.lst [.lst [.str "1", .str "2"], .lst [.str "3", .str "4"],
               .lst [.str "5", .str "6"]]) := rfl
example : parseSpec 1 "\"hello world\" 2 3" =
    .ok (.lst [.str "hello world", .str "2", .str "3"]) := rfl
example : parseSpec 1 "broken \x7b" = .error "broken \x7b" := rfl
example :
    interactModel "_PYTHON_SENTINEL_7_START" "_PYTHON_SENTINEL_7_MIDDLE"
      "_PYTHON_SENTINEL_7_END"
      ["banner\n", "_PYTHON_SENTINEL_7_START\n", "some output\n",
       "_PYTHON_SENTINEL_7_MIDDLE 0 \x7bval x\x7d\n", "_PYTHON_SENTINEL_7_END\n",
       "later\n"] = .value "val x" ["later\n"] := rfl
example :
    interactModel "_PYTHON_SENTINEL_7_START" "_PYTHON_SENTINEL_7_MIDDLE"
      "_PYTHON_SENTINEL_7_END"
      ["_PYTHON_SENTINEL_7_START\n",
       "_PYTHON_SENTINEL_7_MIDDLE 1 \x7bdivide by zero\x7d \x7bARITH DIVZERO \x7bdivide by zero\x7d\x7d \x7btrace here\x7d\n",
       "_PYTHON_SENTINEL_7_END\n"]
      = .tclError "divide by zero" 1 ["ARITH", "DIVZERO", "divide by zero"]
          "trace here" [] := rfl
example : runArgsLine "get_device_names" [] [("hardware_name", "Foo Bar")] =
    "get_device_names -hardware_name \x7bFoo Bar\x7d" := rfl
example : quote "abc" = "\x7babc\x7d" := by decide
example : quote "a b" = "\x7ba b\x7d" := by decide
example : tclEvalWord (quote "abc") = some "abc" := by decide
example : tclEvalWord (quote "a $x [y]") = some "a $x [y]" := by decide
example : quote "\\" = "\x7b\\\x7d" := by decide
example : tclEvalWord (quote "\\") = none := by decide
example : tclEvalWord (quote "x\x7by") = some "x\x7by" := by decide
example : tclEvalWord (quote "\x7d\x7b") = some "\x7d\x7b" := by decide
example : tclEvalWord (quote "a\\\x7bb") = some "a\\\x7bb" := by decide
